import Mathlib

/-!
Shallow embedding of the Asteroids game simulation core (src/asteroid.rs,
src/black_hole.rs, src/missile.rs, src/spaceship.rs, src/main.rs).
Float values (f32) are modelled as exact rationals where the source only
adds, subtracts, multiplies, compares and takes remainders; the Euclidean
distance and the velocity norm, which the source computes with a square
root, are modelled with `Real.sqrt` over the rational data.
-/

namespace AsteroidsGame

/-- macroquad `Vec2`: a pair of (f32) coordinates, modelled over ℚ. -/
structure Vec2 where
  x : ℚ
  y : ℚ
  deriving DecidableEq

instance : Add Vec2 := ⟨fun a b => ⟨a.x + b.x, a.y + b.y⟩⟩

instance : Sub Vec2 := ⟨fun a b => ⟨a.x - b.x, a.y - b.y⟩⟩

/-- Squared Euclidean distance between two positions. -/
def dist2 (a b : Vec2) : ℚ := (a.x - b.x) ^ 2 + (a.y - b.y) ^ 2

/-- macroquad `Vec2::distance`: the Euclidean distance, with the square root
taken over the reals. -/
noncomputable def Vec2.distance (a b : Vec2) : ℝ := Real.sqrt ((dist2 a b : ℚ) : ℝ)

/-- Truncation toward zero of a rational, as Rust's float-to-int truncation
underlying the `%` operator on f32. -/
def rtrunc (q : ℚ) : ℤ := if 0 ≤ q then ⌊q⌋ else ⌈q⌉

/-- Rust's `%` on floats: remainder with truncated (toward-zero) quotient,
so the result carries the sign of the dividend. -/
def frem (x d : ℚ) : ℚ := x - d * rtrunc (x / d)

/-- `wrap_around_screen` as written identically in src/asteroid.rs (lines
185-190) and src/spaceship.rs (lines 143-148), one axis at a time:
`(position + screen_dimension) % screen_dimension`. -/
def wrap_around_screen (d p : ℚ) : ℚ := frem (p + d) d

/-- Both axes of the asteroid/ship wrap, with screen width `w` and height `h`. -/
def wrap_vec (w h : ℚ) (position : Vec2) : Vec2 :=
  ⟨wrap_around_screen w position.x, wrap_around_screen h position.y⟩

/-- Asteroid size tiers (src/asteroid.rs `Size`). -/
inductive Size where
  | Large
  | Medium
  | Small
  deriving DecidableEq

/-- `Size::scale` (src/asteroid.rs lines 38-44): diameter of each tier. -/
def Size.scale : Size → ℚ
  | .Large => 100
  | .Medium => 70
  | .Small => 40

/-- `Size::next` (src/asteroid.rs lines 52-58): Large → Medium → Small → None. -/
def Size.next : Size → Option Size
  | .Large => some .Medium
  | .Medium => some .Small
  | .Small => none

/-- `Asteroid` (src/asteroid.rs); the texture field, pure rendering data,
is omitted. -/
structure Asteroid where
  position : Vec2
  speed : Vec2
  size : Size
  active : Bool
  deriving DecidableEq

/-- `Asteroid::new_with_size` (src/asteroid.rs lines 88-96), texture dropped. -/
def Asteroid.new_with_size (size : Size) (position speed : Vec2) : Asteroid :=
  ⟨position, speed, size, true⟩

/-- `Asteroid::get_size`. -/
def Asteroid.get_size (a : Asteroid) : Size := a.size

/-- `Asteroid::split` (src/asteroid.rs lines 128-149). The random
`speed_variation` (components sampled in [-1,1)) is passed as a parameter. -/
def Asteroid.split (a : Asteroid) (speed_variation : Vec2) : Option (Asteroid × Asteroid) :=
  match a.size.next with
  | some new_size =>
      some (Asteroid.new_with_size new_size a.position (a.speed + speed_variation),
            Asteroid.new_with_size new_size a.position (a.speed - speed_variation))
  | none => none

/-- `Asteroid::get_pos`. -/
def Asteroid.get_pos (a : Asteroid) : Vec2 := a.position

/-- `Asteroid::radius` (src/asteroid.rs lines 218-220). -/
def Asteroid.radius (a : Asteroid) : ℚ := a.get_size.scale / 2

/-- `Asteroid::move_obj` (src/asteroid.rs lines 208-211): add the speed,
then wrap on each axis. -/
def Asteroid.move_obj (w h : ℚ) (a : Asteroid) : Asteroid :=
  { a with position := wrap_vec w h (a.position + a.speed) }

/-- `Asteroid::handle_collision` (src/asteroid.rs lines 225-227). -/
def Asteroid.handle_collision (a : Asteroid) : Asteroid := { a with active := false }

/-- `Missile` (src/missile.rs). -/
structure Missile where
  position : Vec2
  velocity : Vec2
  active : Bool
  radius : ℚ
  deriving DecidableEq

/-- `Missile::wrap_around_screen` (src/missile.rs lines 41-49): deactivate
when the position leaves the screen (strict comparisons on both sides). -/
def Missile.wrap_around_screen (w h : ℚ) (m : Missile) : Missile :=
  if m.position.x < 0 ∨ m.position.x > w ∨ m.position.y < 0 ∨ m.position.y > h then
    { m with active := false }
  else m

/-- `Missile::move_obj` (src/missile.rs lines 67-70). -/
def Missile.move_obj (w h : ℚ) (m : Missile) : Missile :=
  Missile.wrap_around_screen w h { m with position := m.position + m.velocity }

/-- `Missile::get_pos`. -/
def Missile.get_pos (m : Missile) : Vec2 := m.position

/-- `Missile::handle_collision` (src/missile.rs lines 84-86). -/
def Missile.handle_collision (m : Missile) : Missile := { m with active := false }

/-- `BlackHole` (src/black_hole.rs); texture omitted. -/
structure BlackHole where
  position : Vec2
  size : ℚ
  counter : ℕ
  active : Bool
  deriving DecidableEq

/-- `BlackHole::new` (src/black_hole.rs lines 26-35). -/
def BlackHole.new (position : Vec2) (size_ast : ℚ) : BlackHole :=
  ⟨position, size_ast, 0, true⟩

/-- `BlackHole::get_pos`. -/
def BlackHole.get_pos (b : BlackHole) : Vec2 := b.position

/-- `BlackHole::radius` (src/black_hole.rs lines 74-76). -/
def BlackHole.radius (b : BlackHole) : ℚ := b.size / 2

/-- `BlackHole::handle_collision` (src/black_hole.rs lines 82-88): when the
counter already equals 5, deactivate; otherwise increment the counter. -/
def BlackHole.handle_collision (b : BlackHole) : BlackHole :=
  if b.counter = 5 then { b with active := false } else { b with counter := b.counter + 1 }

/-- `Spaceship` (src/spaceship.rs); textures omitted. -/
structure Spaceship where
  position : Vec2
  velocity : Vec2
  rotation : ℚ
  shield : Bool
  invincible : Bool
  invincibility_timer : ℚ
  hit : Bool
  active : Bool
  radius : ℚ
  deriving DecidableEq

/-- `Spaceship::get_pos`. -/
def Spaceship.get_pos (s : Spaceship) : Vec2 := s.position

/-- `Spaceship::move_obj` (src/spaceship.rs lines 166-169). -/
def Spaceship.move_obj (w h : ℚ) (s : Spaceship) : Spaceship :=
  { s with position := wrap_vec w h (s.position + s.velocity) }

/-- `Spaceship::handle_collision` (src/spaceship.rs lines 183-192). -/
def Spaceship.handle_collision (s : Spaceship) : Spaceship :=
  if s.shield then
    { s with shield := false, invincible := true, invincibility_timer := 2, hit := true }
  else
    { s with active := false }

/-- The `StellarObject` trait (src/stellarobject.rs): position, radius and
collision response shared by ship, asteroids, missiles and black holes.
(`move_obj` is modelled per type since it reads the ambient screen size.) -/
class StellarObject (α : Type) where
  get_pos : α → Vec2
  radius : α → ℚ
  handle_collision : α → α

instance : StellarObject Asteroid :=
  ⟨Asteroid.get_pos, Asteroid.radius, Asteroid.handle_collision⟩

instance : StellarObject Missile :=
  ⟨Missile.get_pos, Missile.radius, Missile.handle_collision⟩

instance : StellarObject BlackHole :=
  ⟨BlackHole.get_pos, BlackHole.radius, BlackHole.handle_collision⟩

instance : StellarObject Spaceship :=
  ⟨Spaceship.get_pos, Spaceship.radius, Spaceship.handle_collision⟩

/-- The collision condition of `check_collision_between` (src/main.rs lines
278-288): Euclidean distance strictly below the sum of the radii. -/
def collides {α β : Type} [StellarObject α] [StellarObject β] (obj1 : α) (obj2 : β) : Prop :=
  Vec2.distance (StellarObject.get_pos obj1) (StellarObject.get_pos obj2) <
    ((StellarObject.radius obj1 + StellarObject.radius obj2 : ℚ) : ℝ)

instance {α β : Type} [StellarObject α] [StellarObject β] (obj1 : α) (obj2 : β) :
    Decidable (collides obj1 obj2) :=
  decidable_of_iff
    (0 < StellarObject.radius obj1 + StellarObject.radius obj2 ∧
      dist2 (StellarObject.get_pos obj1) (StellarObject.get_pos obj2) <
        (StellarObject.radius obj1 + StellarObject.radius obj2) ^ 2)
    (by
      unfold collides Vec2.distance
      constructor
      · rintro ⟨hr, hd⟩
        have hr' : (0 : ℝ) <
            ((StellarObject.radius obj1 + StellarObject.radius obj2 : ℚ) : ℝ) := by
          exact_mod_cast hr
        exact (Real.sqrt_lt' hr').mpr (by exact_mod_cast hd)
      · intro hcol
        have h0 : (0 : ℝ) <
            ((StellarObject.radius obj1 + StellarObject.radius obj2 : ℚ) : ℝ) :=
          lt_of_le_of_lt (Real.sqrt_nonneg _) hcol
        refine ⟨by exact_mod_cast h0, ?_⟩
        exact_mod_cast (Real.sqrt_lt' h0).mp hcol)

/-- `check_collision_between` (src/main.rs lines 278-288): when the distance
is strictly below the radius sum, fire both handlers (first argument first)
and report `true`; otherwise report `false` with both objects untouched. -/
def check_collision_between {α β : Type} [StellarObject α] [StellarObject β]
    (obj1 : α) (obj2 : β) : α × β × Bool :=
  if collides obj1 obj2 then
    (StellarObject.handle_collision obj1, StellarObject.handle_collision obj2, true)
  else (obj1, obj2, false)

/-- Color tags of the temporary texts (RED / GREEN / GOLD in src/main.rs). -/
inductive GameColor where
  | red
  | green
  | gold
  deriving DecidableEq

/-- `TemporaryText` (src/main.rs lines 29-34). -/
structure TemporaryText where
  text : String
  position : Vec2
  color : GameColor
  lifetime : ℚ
  deriving DecidableEq

/-- The mutable state threaded through the Playing arm of `main`
(src/main.rs lines 569-576): ship, the three entity pools, score, the
temporary texts and the wave number. -/
structure GameData where
  spaceship : Spaceship
  asteroids : List Asteroid
  missiles : List Missile
  black_holes : List BlackHole
  score : ℤ
  temporary_texts : List TemporaryText
  wave : ℕ
  deriving DecidableEq

/-- The Asteroid × Ship loop of `check_collision` (src/main.rs lines
319-345): scan the asteroids in order; at the first one whose distance to
the ship is below the radius sum, fire both handlers, then branch on the
ship's `active` flag: still active → deduct 5, push a "-5" text, spawn a
black hole at the asteroid's position sized to its diameter, early-return
`some false`; inactive → early-return `some true`. `none` means no
collision was found and the later passes run. -/
def ast_ship_pass (spaceship : Spaceship) (score : ℤ) (temporary_texts : List TemporaryText)
    (black_holes : List BlackHole) :
    List Asteroid →
      List Asteroid × Spaceship × ℤ × List TemporaryText × List BlackHole × Option Bool
  | [] => ([], spaceship, score, temporary_texts, black_holes, none)
  | asteroid :: rest =>
      if collides asteroid spaceship then
        let asteroid' := Asteroid.handle_collision asteroid
        let spaceship' := Spaceship.handle_collision spaceship
        if spaceship'.active then
          (asteroid' :: rest, spaceship', score - 5,
            temporary_texts ++
              [⟨"-5", spaceship'.get_pos + ⟨20, 20⟩, GameColor.red, 1⟩],
            black_holes ++ [BlackHole.new asteroid'.get_pos asteroid'.get_size.scale],
            some false)
        else
          (asteroid' :: rest, spaceship', score, temporary_texts, black_holes, some true)
      else
        match ast_ship_pass spaceship score temporary_texts black_holes rest with
        | (rest', spaceship', score', texts', black_holes', r) =>
            (asteroid :: rest', spaceship', score', texts', black_holes', r)

/-- The BlackHole × Ship loop of `check_collision` (src/main.rs lines
347-351): the first black hole colliding with the ship fires both handlers
and early-returns game over. -/
def bh_ship_pass (spaceship : Spaceship) :
    List BlackHole → List BlackHole × Spaceship × Option Bool
  | [] => ([], spaceship, none)
  | black_hole :: rest =>
      if collides black_hole spaceship then
        (BlackHole.handle_collision black_hole :: rest,
          Spaceship.handle_collision spaceship, some true)
      else
        match bh_ship_pass spaceship rest with
        | (rest', spaceship', r) => (black_hole :: rest', spaceship', r)

/-- Inner loop of the Asteroid × BlackHole pass (src/main.rs lines 353-365):
one asteroid against every black hole; every colliding pair fires both
handlers (the only other effect is a sound). -/
def ast_bh_one : Asteroid → List BlackHole → Asteroid × List BlackHole
  | a, [] => (a, [])
  | a, black_hole :: rest =>
      if collides a black_hole then
        match ast_bh_one (Asteroid.handle_collision a) rest with
        | (a', rest') => (a', BlackHole.handle_collision black_hole :: rest')
      else
        match ast_bh_one a rest with
        | (a', rest') => (a', black_hole :: rest')

/-- The Asteroid × BlackHole pass (src/main.rs lines 353-365). -/
def ast_bh_pass : List Asteroid → List BlackHole → List Asteroid × List BlackHole
  | [], bhs => ([], bhs)
  | a :: rest, bhs =>
      match ast_bh_one a bhs with
      | (a', bhs') =>
          match ast_bh_pass rest bhs' with
          | (rest', bhs'') => (a' :: rest', bhs'')

/-- Inner loop of the BlackHole × Missile pass (src/main.rs lines 367-380):
one black hole against the missiles in reverse index order; each collision
fires both handlers, and when the black hole is inactive afterwards the
player gains 10 points and a "+10" text. -/
def bh_missile_one : BlackHole → ℤ → List TemporaryText → List Missile →
    List Missile × BlackHole × ℤ × List TemporaryText
  | b, score, texts, [] => ([], b, score, texts)
  | b, score, texts, missile :: rest =>
      match bh_missile_one b score texts rest with
      | (rest', b', score', texts') =>
          if collides missile b' then
            let missile' := Missile.handle_collision missile
            let b'' := BlackHole.handle_collision b'
            if b''.active then (missile' :: rest', b'', score', texts')
            else
              (missile' :: rest', b'', score' + 10,
                texts' ++ [⟨"+10", b''.get_pos + ⟨20, 20⟩, GameColor.green, 0.4⟩])
          else (missile :: rest', b', score', texts')

/-- The BlackHole × Missile pass (src/main.rs lines 367-380). -/
def bh_missile_pass : ℤ → List TemporaryText → List BlackHole → List Missile →
    List BlackHole × List Missile × ℤ × List TemporaryText
  | score, texts, [], ms => ([], ms, score, texts)
  | score, texts, b :: rest, ms =>
      match bh_missile_one b score texts ms with
      | (ms', b', score', texts') =>
          match bh_missile_pass score' texts' rest ms' with
          | (rest', ms'', score'', texts'') => (b' :: rest', ms'', score'', texts'')

/-- The two fragments of `Asteroid::split` as pushed onto
`asteroids_to_split` (src/main.rs lines 401-404). -/
def split_children (a : Asteroid) (speed_variation : Vec2) : List Asteroid :=
  match a.split speed_variation with
  | some (child1, child2) => [child1, child2]
  | none => []

/-- Inner loop of the Asteroid × Missile pass (src/main.rs lines 382-407):
one asteroid against the missiles in reverse index order; the first
collision fires both handlers, awards 1 point, pushes a "+1" text, queues
the split fragments, and breaks out of the missile loop. The returned Bool
records whether the break happened. -/
def ast_missile_one : Asteroid → ℤ → List TemporaryText → Vec2 → List Missile →
    List Missile × Asteroid × ℤ × List TemporaryText × List Asteroid × Bool
  | a, score, texts, _, [] => ([], a, score, texts, [], false)
  | a, score, texts, speed_variation, missile :: rest =>
      match ast_missile_one a score texts speed_variation rest with
      | (rest', a', score', texts', children, broke) =>
          if broke then (missile :: rest', a', score', texts', children, true)
          else if collides a' missile then
            let a'' := Asteroid.handle_collision a'
            let missile' := Missile.handle_collision missile
            (missile' :: rest', a'', score' + 1,
              texts' ++ [⟨"+1", a''.get_pos + ⟨20, 20⟩, GameColor.green, 0.4⟩],
              split_children a'' speed_variation, true)
          else (missile :: rest', a', score', texts', children, false)

/-- The Asteroid × Missile pass (src/main.rs lines 382-408). The random
perturbation fed to `split` is supplied by `deltas`, indexed by the
asteroid's position in the list. -/
def ast_missile_pass : (ℕ → Vec2) → ℕ → ℤ → List TemporaryText → List Asteroid →
    List Missile →
      List Asteroid × List Missile × ℤ × List TemporaryText × List Asteroid
  | _, _, score, texts, [], ms => ([], ms, score, texts, [])
  | deltas, i, score, texts, a :: rest, ms =>
      match ast_missile_one a score texts (deltas i) ms with
      | (ms', a', score', texts', children, _) =>
          match ast_missile_pass deltas (i + 1) score' texts' rest ms' with
          | (rest', ms'', score'', texts'', children2) =>
              (a' :: rest', ms'', score'', texts'', children ++ children2)

/-- `check_collision` (src/main.rs lines 302-414): short-circuit when the
ship is invincible, then run the five passes in order with the early
returns of the first two, finally append the queued fragments. The Bool is
the game-over signal. -/
def check_collision (deltas : ℕ → Vec2) (g : GameData) : GameData × Bool :=
  if g.spaceship.invincible then (g, false)
  else
    match ast_ship_pass g.spaceship g.score g.temporary_texts g.black_holes g.asteroids with
    | (asts, ship1, sc1, txts1, bhs1, some game_over) =>
        ({ g with
            asteroids := asts
            spaceship := ship1
            score := sc1
            temporary_texts := txts1
            black_holes := bhs1 }, game_over)
    | (asts, ship1, sc1, txts1, bhs1, none) =>
        match bh_ship_pass ship1 bhs1 with
        | (bhs2, ship2, some game_over) =>
            ({ g with
                asteroids := asts
                spaceship := ship2
                score := sc1
                temporary_texts := txts1
                black_holes := bhs2 }, game_over)
        | (bhs2, ship2, none) =>
            match ast_bh_pass asts bhs2 with
            | (asts3, bhs3) =>
                match bh_missile_pass sc1 txts1 bhs3 g.missiles with
                | (bhs4, ms4, sc4, txts4) =>
                    match ast_missile_pass deltas 0 sc4 txts4 asts3 ms4 with
                    | (asts5, ms5, sc5, txts5, children) =>
                        ({ g with
                            asteroids := asts5 ++ children
                            spaceship := ship2
                            missiles := ms5
                            black_holes := bhs4
                            score := sc5
                            temporary_texts := txts5 }, false)

/-- `start_new_wave` (src/main.rs lines 526-531): push `5 + (wave - 1)`
fresh asteroids; the random spawns are supplied by `spawn`. -/
def start_new_wave (spawn : ℕ → Asteroid) (asteroids : List Asteroid) (wave : ℕ) :
    List Asteroid :=
  asteroids ++ (List.range (5 + (wave - 1))).map spawn

/-- The wave-clear block of the Playing arm (src/main.rs lines 635-657):
when the asteroid pool is empty, push a "+10" text, add 10 to the score,
increment the wave, reset the ship's shield/invincibility, and spawn the
next wave with the already-incremented wave number. -/
def wave_clear_step (spawn : ℕ → Asteroid) (g : GameData) : GameData :=
  if g.asteroids.isEmpty then
    { g with
        temporary_texts := g.temporary_texts ++
          [⟨"+10", g.spaceship.get_pos + ⟨20, 20⟩, GameColor.gold, 1⟩]
        score := g.score + 10
        wave := g.wave + 1
        spaceship := { g.spaceship with
          shield := true
          invincible := true
          hit := false
          invincibility_timer := 1 }
        asteroids := start_new_wave spawn g.asteroids (g.wave + 1) }
  else g

/-- `update_model` (src/main.rs lines 251-270): move the asteroids then
retain the active ones, retain the active black holes, move the ship, move
the missiles then retain the active ones. -/
def update_model (w h : ℚ) (g : GameData) : GameData :=
  { g with
      asteroids := (g.asteroids.map (Asteroid.move_obj w h)).filter fun a => a.active
      black_holes := g.black_holes.filter fun b => b.active
      spaceship := Spaceship.move_obj w h g.spaceship
      missiles := (g.missiles.map (Missile.move_obj w h)).filter fun m => m.active }

/-- Norm of a velocity vector (`Vec2::length`), over ℝ. -/
noncomputable def vlen (v : ℝ × ℝ) : ℝ := Real.sqrt (v.1 ^ 2 + v.2 ^ 2)

/-- The passive-deceleration branch of `handle_input` (src/main.rs lines
223-229), reached when neither thrust key is down: while the velocity norm
is positive, subtract `normalize(velocity) * 0.005`. -/
noncomputable def decelerate (velocity : ℝ × ℝ) : ℝ × ℝ :=
  if vlen velocity > 0 then
    (velocity.1 - velocity.1 / vlen velocity * 0.005,
      velocity.2 - velocity.2 / vlen velocity * 0.005)
  else velocity

/-- Sample ship far away from the other sample entities (for witnesses). -/
def sample_ship : Spaceship := ⟨⟨500, 500⟩, ⟨0, 0⟩, 0, true, false, 0, false, true, 25⟩

/-- Sample Large asteroid overlapping the sample black hole and missile. -/
def sample_asteroid : Asteroid := ⟨⟨160, 100⟩, ⟨1, 0⟩, Size.Large, true⟩

/-- Sample black hole of diameter 100 (radius 50). -/
def sample_black_hole : BlackHole := ⟨⟨100, 100⟩, 100, 0, true⟩

/-- Sample missile overlapping the sample asteroid but not the black hole. -/
def sample_missile : Missile := ⟨⟨205, 100⟩, ⟨4, 0⟩, true, 2⟩

/-- Sample state holding the four sample entities. -/
def sample_state : GameData :=
  ⟨sample_ship, [sample_asteroid], [sample_missile], [sample_black_hole], 0, [], 1⟩

/-! Unfolding equations used to evaluate the embedding on concrete data. -/

theorem Vec2.add_def (a b : Vec2) : a + b = ⟨a.x + b.x, a.y + b.y⟩ := rfl

theorem Vec2.sub_def (a b : Vec2) : a - b = ⟨a.x - b.x, a.y - b.y⟩ := rfl

theorem asteroid_radius_eq (a : Asteroid) : StellarObject.radius a = a.size.scale / 2 := rfl

theorem asteroid_pos_eq (a : Asteroid) : StellarObject.get_pos a = a.position := rfl

theorem asteroid_handle_eq (a : Asteroid) :
    StellarObject.handle_collision a = Asteroid.handle_collision a := rfl

theorem missile_radius_eq (m : Missile) : StellarObject.radius m = m.radius := rfl

theorem missile_pos_eq (m : Missile) : StellarObject.get_pos m = m.position := rfl

theorem blackhole_radius_eq (b : BlackHole) : StellarObject.radius b = b.size / 2 := rfl

theorem blackhole_pos_eq (b : BlackHole) : StellarObject.get_pos b = b.position := rfl

theorem ship_radius_eq (s : Spaceship) : StellarObject.radius s = s.radius := rfl

theorem ship_pos_eq (s : Spaceship) : StellarObject.get_pos s = s.position := rfl

theorem ship_handle_eq (s : Spaceship) :
    StellarObject.handle_collision s = Spaceship.handle_collision s := rfl

/-- The strict-inequality collision test, rephrased without the square
root: the radius sum is positive and the squared distance is below its
square. This is how concrete instances are decided. -/
theorem collides_iff {α β : Type} [StellarObject α] [StellarObject β] (o1 : α) (o2 : β) :
    collides o1 o2 ↔
      0 < StellarObject.radius o1 + StellarObject.radius o2 ∧
        dist2 (StellarObject.get_pos o1) (StellarObject.get_pos o2) <
          (StellarObject.radius o1 + StellarObject.radius o2) ^ 2 := by
  unfold collides Vec2.distance
  constructor
  · intro hcol
    have h0 : (0 : ℝ) < ((StellarObject.radius o1 + StellarObject.radius o2 : ℚ) : ℝ) :=
      lt_of_le_of_lt (Real.sqrt_nonneg _) hcol
    refine ⟨by exact_mod_cast h0, ?_⟩
    exact_mod_cast (Real.sqrt_lt' h0).mp hcol
  · rintro ⟨hr, hd⟩
    have hr' : (0 : ℝ) < ((StellarObject.radius o1 + StellarObject.radius o2 : ℚ) : ℝ) := by
      exact_mod_cast hr
    exact (Real.sqrt_lt' hr').mpr (by exact_mod_cast hd)

/-! ### C1 — black hole hit counter -/

/-- C1: the claim says a black hole is inactive after exactly 5 handled
collisions. The code disagrees with the claim (and with its own doc
comment): after 5 handled collisions the black hole is still active with
counter 5; only the 6th call of `handle_collision` deactivates it (and
that call does not increment the counter). After 4 collisions it is active
with counter 4 as the claim says. -/
theorem black_hole_counter_five_still_active :
    ((BlackHole.handle_collision)^[4] (BlackHole.new ⟨0, 0⟩ 100)).counter = 4 ∧
    ((BlackHole.handle_collision)^[4] (BlackHole.new ⟨0, 0⟩ 100)).active = true ∧
    ((BlackHole.handle_collision)^[5] (BlackHole.new ⟨0, 0⟩ 100)).counter = 5 ∧
    ((BlackHole.handle_collision)^[5] (BlackHole.new ⟨0, 0⟩ 100)).active = true ∧
    ((BlackHole.handle_collision)^[6] (BlackHole.new ⟨0, 0⟩ 100)).active = false := by
  norm_num [BlackHole.new, BlackHole.handle_collision, Function.iterate_succ_apply]

/-! ### C6 — screen wrap -/

/-- C6 counterexample: the wrap used by asteroids and the ship is
`(p + D) % D` with Rust's truncated remainder, so for `p = -150`, `D = 100`
(a real `p < -D`) the result is `-50`, outside `[0, D)`, and wrapping again
gives `50`, so the function is not idempotent there either. -/
theorem wrap_around_screen_neg_counterexample :
    wrap_around_screen 100 (-150) = -50 ∧
    ¬ (0 ≤ wrap_around_screen 100 (-150)) ∧
    wrap_around_screen 100 (wrap_around_screen 100 (-150)) ≠
      wrap_around_screen 100 (-150) := by
  have e1 : wrap_around_screen 100 (-150) = -50 := by
    unfold wrap_around_screen frem rtrunc
    rw [if_neg (by norm_num)]
    norm_num
  have e2 : wrap_around_screen 100 (-50) = 50 := by
    unfold wrap_around_screen frem rtrunc
    rw [if_pos (by norm_num)]
    norm_num
  refine ⟨e1, by rw [e1]; norm_num, by rw [e1, e2]; norm_num⟩

theorem frem_eq_mul_fract (x d : ℚ) (hd : 0 < d) (hx : 0 ≤ x) :
    frem x d = d * Int.fract (x / d) := by
  unfold frem rtrunc Int.fract
  rw [if_pos (by positivity : (0 : ℚ) ≤ x / d)]
  field_simp

/-- C6 (amended): for any dimension `D > 0` the wrap lands in `[0, D)` and
is idempotent for every `p ≥ -D`; below `-D` the truncated remainder is
negative (see the counterexample). -/
theorem wrap_around_screen_spec (d p : ℚ) (hd : 0 < d) (hp : -d ≤ p) :
    0 ≤ wrap_around_screen d p ∧ wrap_around_screen d p < d ∧
    wrap_around_screen d (wrap_around_screen d p) = wrap_around_screen d p := by
  have hx : (0 : ℚ) ≤ p + d := by linarith
  have heq : wrap_around_screen d p = d * Int.fract ((p + d) / d) :=
    frem_eq_mul_fract (p + d) d hd hx
  have h0 : 0 ≤ wrap_around_screen d p := by
    rw [heq]
    exact mul_nonneg hd.le (Int.fract_nonneg _)
  have h1 : wrap_around_screen d p < d := by
    rw [heq]
    calc d * Int.fract ((p + d) / d) < d * 1 :=
          (mul_lt_mul_left hd).mpr (Int.fract_lt_one _)
      _ = d := mul_one d
  refine ⟨h0, h1, ?_⟩
  set r := wrap_around_screen d p with hr
  have hfloor : ⌊(r + d) / d⌋ = 1 := by
    have hdiv : (r + d) / d = r / d + 1 := by field_simp
    rw [hdiv]
    have : ⌊r / d⌋ = 0 := by
      rw [Int.floor_eq_zero_iff]
      constructor
      · positivity
      · exact (div_lt_one hd).mpr h1
    rw [Int.floor_add_one, this]
    norm_num
  show frem (r + d) d = r
  unfold frem rtrunc
  rw [if_pos (by positivity : (0 : ℚ) ≤ (r + d) / d), hfloor]
  push_cast
  ring

/-- C6 witness: `D = 100`, `p = 250`. -/
theorem wrap_around_screen_spec_witness :
    0 ≤ wrap_around_screen 100 250 ∧ wrap_around_screen 100 250 < 100 ∧
    wrap_around_screen 100 (wrap_around_screen 100 250) = wrap_around_screen 100 250 :=
  wrap_around_screen_spec 100 250 (by norm_num) (by norm_num)

/-! ### C7 — missile movement and deactivation -/

/-- C7 counterexample: a missile reaching `x = screen_width` exactly is,
per the claim, outside the half-open box and must deactivate; the code
compares with strict `>` and keeps it active. -/
theorem missile_boundary_counterexample :
    (Missile.move_obj 100 100 ⟨⟨96, 50⟩, ⟨4, 0⟩, true, 2⟩).position = ⟨100, 50⟩ ∧
    (Missile.move_obj 100 100 ⟨⟨96, 50⟩, ⟨4, 0⟩, true, 2⟩).active = true ∧
    ¬ ((100 : ℚ) < 100) := by
  norm_num [Missile.move_obj, Missile.wrap_around_screen, Vec2.add_def]

/-- C7 (amended): moving a missile adds its velocity to its position, never
wraps, leaves the velocity unchanged, and the missile stays active iff it
was active and the new position lies in the CLOSED box
`[0, w] × [0, h]` (strict comparisons in the source). -/
theorem missile_move_obj_spec (w h : ℚ) (m : Missile) :
    (Missile.move_obj w h m).position = m.position + m.velocity ∧
    (Missile.move_obj w h m).velocity = m.velocity ∧
    ((Missile.move_obj w h m).active = true ↔
      m.active = true ∧ 0 ≤ (m.position + m.velocity).x ∧ (m.position + m.velocity).x ≤ w ∧
        0 ≤ (m.position + m.velocity).y ∧ (m.position + m.velocity).y ≤ h) := by
  unfold Missile.move_obj Missile.wrap_around_screen
  by_cases hc : (m.position + m.velocity).x < 0 ∨ (m.position + m.velocity).x > w ∨
      (m.position + m.velocity).y < 0 ∨ (m.position + m.velocity).y > h
  · rw [if_pos hc]
    refine ⟨rfl, rfl, ?_⟩
    constructor
    · intro hfalse
      exact absurd hfalse (by simp)
    · rintro ⟨-, h1, h2, h3, h4⟩
      rcases hc with h | h | h | h <;> linarith
  · rw [if_neg hc]
    push_neg at hc
    refine ⟨rfl, rfl, ?_⟩
    constructor
    · intro hact
      exact ⟨hact, hc.1, le_of_not_lt (by simpa [gt_iff_lt] using hc.2.1),
        hc.2.2.1, le_of_not_lt (by simpa [gt_iff_lt] using hc.2.2.2)⟩
    · rintro ⟨hact, -, -, -, -⟩
      exact hact

/-! ### C8 — asteroid splitting -/

/-- C8: splitting a Large asteroid yields two Medium fragments, a Medium
two Small ones, a Small none; both fragments sit at the parent's position,
are active, and carry velocities `parent ± δ` for the same perturbation δ,
so their velocities sum to twice the parent's. -/
theorem asteroid_split_spec (a : Asteroid) (δ : Vec2) :
    (a.size = Size.Large →
      a.split δ = some (⟨a.position, a.speed + δ, Size.Medium, true⟩,
        ⟨a.position, a.speed - δ, Size.Medium, true⟩)) ∧
    (a.size = Size.Medium →
      a.split δ = some (⟨a.position, a.speed + δ, Size.Small, true⟩,
        ⟨a.position, a.speed - δ, Size.Small, true⟩)) ∧
    (a.size = Size.Small → a.split δ = none) ∧
    (∀ child1 child2, a.split δ = some (child1, child2) →
      child1.position = a.position ∧ child2.position = a.position ∧
      child1.speed + child2.speed = a.speed + a.speed ∧
      child1.active = true ∧ child2.active = true) := by
  refine ⟨?_, ?_, ?_, ?_⟩
  · intro hs
    simp [Asteroid.split, hs, Size.next, Asteroid.new_with_size]
  · intro hs
    simp [Asteroid.split, hs, Size.next, Asteroid.new_with_size]
  · intro hs
    simp [Asteroid.split, hs, Size.next]
  · intro child1 child2 hsplit
    unfold Asteroid.split at hsplit
    cases hnext : a.size.next with
    | none => rw [hnext] at hsplit; cases hsplit
    | some new_size =>
        rw [hnext] at hsplit
        simp only [Option.some.injEq, Prod.mk.injEq] at hsplit
        obtain ⟨h1, h2⟩ := hsplit
        subst h1
        subst h2
        refine ⟨rfl, rfl, ?_, rfl, rfl⟩
        simp only [Asteroid.new_with_size, Vec2.add_def, Vec2.sub_def, Vec2.mk.injEq]
        constructor <;> ring

/-- C8 witness: a Large asteroid with velocity (1, 0) split with δ = (2, 3). -/
theorem asteroid_split_spec_witness :
    Asteroid.split ⟨⟨160, 100⟩, ⟨1, 0⟩, Size.Large, true⟩ ⟨2, 3⟩ =
      some (⟨⟨160, 100⟩, ⟨1, 0⟩ + ⟨2, 3⟩, Size.Medium, true⟩,
        ⟨⟨160, 100⟩, ⟨1, 0⟩ - ⟨2, 3⟩, Size.Medium, true⟩) :=
  (asteroid_split_spec ⟨⟨160, 100⟩, ⟨1, 0⟩, Size.Large, true⟩ ⟨2, 3⟩).1 rfl

/-! ### C5 — passive deceleration -/

theorem vlen_scale (c : ℝ) (v : ℝ × ℝ) : vlen (c * v.1, c * v.2) = |c| * vlen v := by
  unfold vlen
  rw [show (c * v.1) ^ 2 + (c * v.2) ^ 2 = c ^ 2 * (v.1 ^ 2 + v.2 ^ 2) by ring]
  rw [Real.sqrt_mul (sq_nonneg c), Real.sqrt_sq_eq_abs]

/-- C5 counterexample: the deceleration step has no clamp. A velocity of
norm 1/400 < 0.005 is sent to exactly its negation: the norm is not driven
to 0 and the direction reverses (negative dot product with the old
velocity), contradicting the claimed clamping. -/
theorem decelerate_reversal_counterexample :
    decelerate ((3 / 2000 : ℝ), (1 / 500 : ℝ)) = (-(3 / 2000), -(1 / 500)) ∧
    vlen ((3 / 2000 : ℝ), (1 / 500 : ℝ)) = 1 / 400 ∧
    vlen (decelerate ((3 / 2000 : ℝ), (1 / 500 : ℝ))) = 1 / 400 ∧
    (-(3 / 2000) : ℝ) * (3 / 2000) + (-(1 / 500) : ℝ) * (1 / 500) < 0 := by
  have hl : vlen ((3 / 2000 : ℝ), (1 / 500 : ℝ)) = 1 / 400 := by
    unfold vlen
    rw [show ((3 / 2000 : ℝ)) ^ 2 + ((1 / 500 : ℝ)) ^ 2 = (1 / 400 : ℝ) ^ 2 by norm_num]
    exact Real.sqrt_sq (by norm_num)
  have hd : decelerate ((3 / 2000 : ℝ), (1 / 500 : ℝ)) = (-(3 / 2000), -(1 / 500)) := by
    unfold decelerate
    rw [hl]
    rw [if_pos (by norm_num)]
    norm_num [Prod.mk.injEq]
  refine ⟨hd, hl, ?_, by norm_num⟩
  rw [hd]
  unfold vlen
  rw [show (-(3 / 2000 : ℝ)) ^ 2 + (-(1 / 500 : ℝ)) ^ 2 = (1 / 400 : ℝ) ^ 2 by norm_num]
  exact Real.sqrt_sq (by norm_num)

/-- C5 (amended): with no thrust key down, a zero velocity is left
unchanged (the zero vector is never normalized); a velocity of positive
norm becomes the scalar multiple `(1 - 0.005/‖v‖) · v` of itself, of norm
`|‖v‖ - 0.005|`: the norm decreases by exactly 0.005 whenever
`‖v‖ ≥ 0.005`, and for `0 < ‖v‖ < 0.005` the step overshoots zero and
reverses the direction — there is no clamp in the code. -/
theorem decelerate_spec (v : ℝ × ℝ) :
    (vlen v = 0 → decelerate v = v) ∧
    (0 < vlen v →
      decelerate v = ((1 - 0.005 / vlen v) * v.1, (1 - 0.005 / vlen v) * v.2) ∧
      vlen (decelerate v) = |vlen v - 0.005|) ∧
    (0.005 ≤ vlen v → vlen (decelerate v) = vlen v - 0.005) := by
  have hmain : ∀ _ : 0 < vlen v,
      decelerate v = ((1 - 0.005 / vlen v) * v.1, (1 - 0.005 / vlen v) * v.2) := by
    intro hv
    unfold decelerate
    rw [if_pos hv]
    simp only [Prod.mk.injEq]
    constructor <;> ring
  have hnorm : ∀ _ : 0 < vlen v, vlen (decelerate v) = |vlen v - 0.005| := by
    intro hv
    rw [hmain hv, vlen_scale]
    have habs : |1 - 0.005 / vlen v| * vlen v = |(1 - 0.005 / vlen v) * vlen v| := by
      rw [abs_mul, abs_of_pos hv]
    rw [habs]
    congr 1
    field_simp
  refine ⟨?_, fun hv => ⟨hmain hv, hnorm hv⟩, ?_⟩
  · intro h0
    unfold decelerate
    rw [if_neg (by rw [h0]; exact lt_irrefl 0)]
  · intro h5
    have hv : 0 < vlen v := lt_of_lt_of_le (by norm_num) h5
    rw [hnorm hv, abs_of_nonneg (by linarith)]

/-- C5 witness: a velocity of norm 5 loses exactly 0.005 of norm. -/
theorem decelerate_spec_witness :
    vlen (decelerate ((3 : ℝ), (4 : ℝ))) = vlen ((3 : ℝ), (4 : ℝ)) - 0.005 ∧
    vlen ((3 : ℝ), (4 : ℝ)) = 5 := by
  have h5 : vlen ((3 : ℝ), (4 : ℝ)) = 5 := by
    unfold vlen
    rw [show ((3 : ℝ)) ^ 2 + ((4 : ℝ)) ^ 2 = (5 : ℝ) ^ 2 by norm_num]
    exact Real.sqrt_sq (by norm_num)
  exact ⟨(decelerate_spec (3, 4)).2.2 (by rw [h5]; norm_num), h5⟩

/-! ### C9 — pairwise collision detection -/

/-- C9: `check_collision_between` reports a collision iff the Euclidean
distance between the two positions is strictly below the sum of the radii;
distance exactly equal to the radius sum is not a collision; exactly when
a collision is reported, both handlers fire (first argument first in the
source); otherwise both objects are returned untouched. -/
theorem check_collision_between_spec {α β : Type} [StellarObject α] [StellarObject β]
    (obj1 : α) (obj2 : β) :
    ((check_collision_between obj1 obj2).2.2 = true ↔
      Vec2.distance (StellarObject.get_pos obj1) (StellarObject.get_pos obj2) <
        ((StellarObject.radius obj1 + StellarObject.radius obj2 : ℚ) : ℝ)) ∧
    (Vec2.distance (StellarObject.get_pos obj1) (StellarObject.get_pos obj2) =
        ((StellarObject.radius obj1 + StellarObject.radius obj2 : ℚ) : ℝ) →
      check_collision_between obj1 obj2 = (obj1, obj2, false)) ∧
    (Vec2.distance (StellarObject.get_pos obj1) (StellarObject.get_pos obj2) <
        ((StellarObject.radius obj1 + StellarObject.radius obj2 : ℚ) : ℝ) →
      check_collision_between obj1 obj2 =
        (StellarObject.handle_collision obj1, StellarObject.handle_collision obj2, true)) ∧
    (¬ Vec2.distance (StellarObject.get_pos obj1) (StellarObject.get_pos obj2) <
        ((StellarObject.radius obj1 + StellarObject.radius obj2 : ℚ) : ℝ) →
      check_collision_between obj1 obj2 = (obj1, obj2, false)) := by
  have hc : (Vec2.distance (StellarObject.get_pos obj1) (StellarObject.get_pos obj2) <
      ((StellarObject.radius obj1 + StellarObject.radius obj2 : ℚ) : ℝ)) =
        collides obj1 obj2 := rfl
  rw [hc]
  by_cases h : collides obj1 obj2
  · refine ⟨by simp [check_collision_between, h], ?_, ?_, ?_⟩
    · intro heq
      rw [← hc, heq] at h
      exact absurd h (lt_irrefl _)
    · intro _
      simp [check_collision_between, h]
    · intro hn
      exact absurd h hn
  · refine ⟨by simp [check_collision_between, h], ?_, ?_, ?_⟩
    · intro _
      simp [check_collision_between, h]
    · intro hlt
      exact absurd hlt h
    · intro _
      simp [check_collision_between, h]

/-- C9 witness: the ship at (20,70) with radius 30 against a Small asteroid
at (50,100) with radius 20: distance √1800 < 50, so both handlers fire. -/
theorem check_collision_between_spec_witness :
    check_collision_between (⟨⟨50, 100⟩, ⟨0, 0⟩, Size.Small, true⟩ : Asteroid)
        (⟨⟨20, 70⟩, ⟨0, 0⟩, 0, true, false, 0, false, true, 30⟩ : Spaceship) =
      (⟨⟨50, 100⟩, ⟨0, 0⟩, Size.Small, false⟩,
        ⟨⟨20, 70⟩, ⟨0, 0⟩, 0, false, true, 2, true, true, 30⟩, true) := by
  have hcol : collides (⟨⟨50, 100⟩, ⟨0, 0⟩, Size.Small, true⟩ : Asteroid)
      (⟨⟨20, 70⟩, ⟨0, 0⟩, 0, true, false, 0, false, true, 30⟩ : Spaceship) := by
    rw [collides_iff]
    norm_num [dist2, asteroid_radius_eq, asteroid_pos_eq, ship_radius_eq, ship_pos_eq,
      Size.scale]
  exact (check_collision_between_spec _ _).2.2.1 hcol

/-! ### C4 — ship collision state machine -/

/-- C4: a shielded ship hit once loses the shield, becomes invincible with
a 2.0 timer, raises `hit`, and keeps its `active` flag (an active ship
stays active); an unshielded, non-invincible ship hit once is deactivated;
and while the ship is invincible `check_collision` short-circuits before
any pairwise test, so no collision handler of any entity fires and the
whole state is returned unchanged. -/
theorem spaceship_collision_state_machine (s : Spaceship) (deltas : ℕ → Vec2)
    (g : GameData) :
    (s.shield = true →
      Spaceship.handle_collision s =
        { s with shield := false, invincible := true, invincibility_timer := 2, hit := true }) ∧
    (s.shield = false → s.invincible = false →
      (Spaceship.handle_collision s).active = false) ∧
    (g.spaceship.invincible = true → check_collision deltas g = (g, false)) := by
  refine ⟨?_, ?_, ?_⟩
  · intro hs
    unfold Spaceship.handle_collision
    rw [if_pos hs]
  · intro hs _
    unfold Spaceship.handle_collision
    rw [if_neg (by rw [hs]; exact Bool.false_ne_true)]
  · intro hinv
    unfold check_collision
    rw [if_pos hinv]

/-- C4 witness: the three cases at concrete ships / a concrete state. -/
theorem spaceship_collision_state_machine_witness :
    Spaceship.handle_collision ⟨⟨0, 0⟩, ⟨0, 0⟩, 0, true, false, 0, false, true, 25⟩ =
      ⟨⟨0, 0⟩, ⟨0, 0⟩, 0, false, true, 2, true, true, 25⟩ ∧
    (Spaceship.handle_collision
      ⟨⟨0, 0⟩, ⟨0, 0⟩, 0, false, false, 0, false, true, 25⟩).active = false ∧
    check_collision (fun _ => ⟨0, 0⟩)
        ⟨⟨⟨0, 0⟩, ⟨0, 0⟩, 0, false, true, 1, true, true, 25⟩,
          [⟨⟨0, 0⟩, ⟨1, 0⟩, Size.Large, true⟩], [], [], 0, [], 1⟩ =
      (⟨⟨⟨0, 0⟩, ⟨0, 0⟩, 0, false, true, 1, true, true, 25⟩,
          [⟨⟨0, 0⟩, ⟨1, 0⟩, Size.Large, true⟩], [], [], 0, [], 1⟩, false) := by
  refine ⟨?_, ?_, ?_⟩
  · exact (spaceship_collision_state_machine
      ⟨⟨0, 0⟩, ⟨0, 0⟩, 0, true, false, 0, false, true, 25⟩ (fun _ => ⟨0, 0⟩)
      ⟨⟨⟨0, 0⟩, ⟨0, 0⟩, 0, false, true, 1, true, true, 25⟩, [], [], [], 0, [], 1⟩).1 rfl
  · exact (spaceship_collision_state_machine
      ⟨⟨0, 0⟩, ⟨0, 0⟩, 0, false, false, 0, false, true, 25⟩ (fun _ => ⟨0, 0⟩)
      ⟨⟨⟨0, 0⟩, ⟨0, 0⟩, 0, false, true, 1, true, true, 25⟩, [], [], [], 0, [], 1⟩).2.1 rfl rfl
  · exact (spaceship_collision_state_machine
      ⟨⟨0, 0⟩, ⟨0, 0⟩, 0, true, false, 0, false, true, 25⟩ (fun _ => ⟨0, 0⟩)
      ⟨⟨⟨0, 0⟩, ⟨0, 0⟩, 0, false, true, 1, true, true, 25⟩,
        [⟨⟨0, 0⟩, ⟨1, 0⟩, Size.Large, true⟩], [], [], 0, [], 1⟩).2.2 rfl

/-! ### C2 — wave clear -/

/-- C2 counterexample: at wave 1 with the pool empty, the code spawns 6
asteroids, not the 5 the claim computes from the wave being cleared: the
wave counter is incremented before `start_new_wave` runs, so the batch is
`5 + (wave_new - 1) = 5 + wave_old`. -/
theorem wave_clear_spawn_count_counterexample :
    (wave_clear_step (fun _ => ⟨⟨10, 10⟩, ⟨1, 0⟩, Size.Large, true⟩)
      ⟨⟨⟨0, 0⟩, ⟨0, 0⟩, 0, true, false, 0, false, true, 25⟩,
        [], [], [], 0, [], 1⟩).wave = 2 ∧
    (wave_clear_step (fun _ => ⟨⟨10, 10⟩, ⟨1, 0⟩, Size.Large, true⟩)
      ⟨⟨⟨0, 0⟩, ⟨0, 0⟩, 0, true, false, 0, false, true, 25⟩,
        [], [], [], 0, [], 1⟩).score = 10 ∧
    (wave_clear_step (fun _ => ⟨⟨10, 10⟩, ⟨1, 0⟩, Size.Large, true⟩)
      ⟨⟨⟨0, 0⟩, ⟨0, 0⟩, 0, true, false, 0, false, true, 25⟩,
        [], [], [], 0, [], 1⟩).asteroids.length = 6 ∧
    (wave_clear_step (fun _ => ⟨⟨10, 10⟩, ⟨1, 0⟩, Size.Large, true⟩)
      ⟨⟨⟨0, 0⟩, ⟨0, 0⟩, 0, true, false, 0, false, true, 25⟩,
        [], [], [], 0, [], 1⟩).asteroids.length ≠ 5 := by
  norm_num [wave_clear_step, start_new_wave]

/-- C2 (amended): whenever the asteroid pool is empty, the wave counter
goes up by exactly 1 and the score by exactly 10, but the batch spawned
counts `5 + (new_wave - 1) = 5 + wave_cleared` asteroids: clearing wave 1
spawns 6, clearing wave 2 spawns 7. -/
theorem wave_clear_step_spec (spawn : ℕ → Asteroid) (g : GameData)
    (h : g.asteroids = []) :
    (wave_clear_step spawn g).wave = g.wave + 1 ∧
    (wave_clear_step spawn g).score = g.score + 10 ∧
    (wave_clear_step spawn g).asteroids.length = 5 + g.wave := by
  unfold wave_clear_step
  rw [h]
  simp [start_new_wave, h]

/-- C2 witness: clearing wave 3 with 5 points: wave 4, score 15, 8 spawns. -/
theorem wave_clear_step_spec_witness :
    (wave_clear_step (fun _ => ⟨⟨10, 10⟩, ⟨1, 0⟩, Size.Small, true⟩)
      ⟨⟨⟨0, 0⟩, ⟨0, 0⟩, 0, true, false, 0, false, true, 25⟩,
        [], [], [], 5, [], 3⟩).wave = 4 ∧
    (wave_clear_step (fun _ => ⟨⟨10, 10⟩, ⟨1, 0⟩, Size.Small, true⟩)
      ⟨⟨⟨0, 0⟩, ⟨0, 0⟩, 0, true, false, 0, false, true, 25⟩,
        [], [], [], 5, [], 3⟩).score = 15 ∧
    (wave_clear_step (fun _ => ⟨⟨10, 10⟩, ⟨1, 0⟩, Size.Small, true⟩)
      ⟨⟨⟨0, 0⟩, ⟨0, 0⟩, 0, true, false, 0, false, true, 25⟩,
        [], [], [], 5, [], 3⟩).asteroids.length = 5 + 3 :=
  wave_clear_step_spec (fun _ => ⟨⟨10, 10⟩, ⟨1, 0⟩, Size.Small, true⟩)
    ⟨⟨⟨0, 0⟩, ⟨0, 0⟩, 0, true, false, 0, false, true, 25⟩, [], [], [], 5, [], 3⟩ rfl

/-! ### C3 — Asteroid × Ship pass -/

/-- C3 counterexample: an asteroid hits a ship that is ACTIVE going into
the collision but unshielded and not invincible. The branch in the source
reads `spaceship.active` only after the handlers ran, and the handler has
already deactivated the ship, so the pass signals game over, deducts
nothing and spawns no black hole — refuting both "active going in → −5,
no game-over" and the "game-over iff already inactive" direction of the
claim. -/
theorem asteroid_ship_active_unshielded_counterexample :
    (check_collision (fun _ => ⟨0, 0⟩)
      ⟨⟨⟨20, 70⟩, ⟨0, 0⟩, 0, false, false, 0, false, true, 30⟩,
        [⟨⟨50, 100⟩, ⟨0, 0⟩, Size.Small, true⟩], [], [], 0, [], 1⟩).2 = true ∧
    (⟨⟨20, 70⟩, ⟨0, 0⟩, 0, false, false, 0, false, true, 30⟩ : Spaceship).active = true ∧
    (check_collision (fun _ => ⟨0, 0⟩)
      ⟨⟨⟨20, 70⟩, ⟨0, 0⟩, 0, false, false, 0, false, true, 30⟩,
        [⟨⟨50, 100⟩, ⟨0, 0⟩, Size.Small, true⟩], [], [], 0, [], 1⟩).1.score = 0 ∧
    (check_collision (fun _ => ⟨0, 0⟩)
      ⟨⟨⟨20, 70⟩, ⟨0, 0⟩, 0, false, false, 0, false, true, 30⟩,
        [⟨⟨50, 100⟩, ⟨0, 0⟩, Size.Small, true⟩], [], [], 0, [], 1⟩).1.black_holes = [] := by
  have hcol : collides (⟨⟨50, 100⟩, ⟨0, 0⟩, Size.Small, true⟩ : Asteroid)
      (⟨⟨20, 70⟩, ⟨0, 0⟩, 0, false, false, 0, false, true, 30⟩ : Spaceship) := by
    rw [collides_iff]
    norm_num [dist2, asteroid_radius_eq, asteroid_pos_eq, ship_radius_eq, ship_pos_eq,
      Size.scale]
  refine ⟨?_, rfl, ?_, ?_⟩ <;>
    simp [check_collision, ast_ship_pass, hcol, Spaceship.handle_collision]

/-- C3 (amended): in the Asteroid × Ship pass the branch is decided by the
ship's `active` flag AFTER the collision handlers ran, not going in. For
the first colliding asteroid: both handlers fire; if the ship is still
active afterwards (it was shielded), the score drops by 5, a "-5" text is
emitted, a black hole spawns at the asteroid's position with radius half
the asteroid's diameter, and the pass returns no-game-over having touched
nothing else; if the ship is inactive after the handler, game over is
signalled immediately. Either way no later asteroid and no other pass of
that tick is processed. -/
theorem asteroid_ship_pass_spec (deltas : ℕ → Vec2) (g : GameData) (a : Asteroid)
    (rest : List Asteroid)
    (hinv : g.spaceship.invincible = false)
    (hast : g.asteroids = a :: rest)
    (hcol : collides a g.spaceship) :
    (BlackHole.new (Asteroid.handle_collision a).get_pos
        (Asteroid.handle_collision a).get_size.scale).radius =
      (Asteroid.handle_collision a).get_size.scale / 2 ∧
    ((Spaceship.handle_collision g.spaceship).active = true →
      check_collision deltas g =
        ({ g with
            asteroids := Asteroid.handle_collision a :: rest
            spaceship := Spaceship.handle_collision g.spaceship
            score := g.score - 5
            temporary_texts := g.temporary_texts ++
              [⟨"-5", (Spaceship.handle_collision g.spaceship).get_pos + ⟨20, 20⟩,
                GameColor.red, 1⟩]
            black_holes := g.black_holes ++
              [BlackHole.new (Asteroid.handle_collision a).get_pos
                (Asteroid.handle_collision a).get_size.scale] }, false)) ∧
    ((Spaceship.handle_collision g.spaceship).active = false →
      check_collision deltas g =
        ({ g with
            asteroids := Asteroid.handle_collision a :: rest
            spaceship := Spaceship.handle_collision g.spaceship }, true)) := by
  refine ⟨rfl, ?_, ?_⟩
  · intro hact
    unfold check_collision
    rw [if_neg (by rw [hinv]; exact Bool.false_ne_true)]
    rw [hast]
    simp only [ast_ship_pass, hcol, if_true, hact]
  · intro hact
    unfold check_collision
    rw [if_neg (by rw [hinv]; exact Bool.false_ne_true)]
    rw [hast]
    simp only [ast_ship_pass, hcol, if_true, hact, Bool.false_eq_true, if_false]

/-- C3 witness: the shielded ship survives the hit, score −5, one black
hole of diameter 40 (Small asteroid) at the asteroid's position. -/
theorem asteroid_ship_pass_spec_witness :
    (check_collision (fun _ => ⟨0, 0⟩)
      ⟨⟨⟨20, 70⟩, ⟨0, 0⟩, 0, true, false, 0, false, true, 30⟩,
        [⟨⟨50, 100⟩, ⟨0, 0⟩, Size.Small, true⟩], [], [], 0, [], 1⟩).2 = false ∧
    (check_collision (fun _ => ⟨0, 0⟩)
      ⟨⟨⟨20, 70⟩, ⟨0, 0⟩, 0, true, false, 0, false, true, 30⟩,
        [⟨⟨50, 100⟩, ⟨0, 0⟩, Size.Small, true⟩], [], [], 0, [], 1⟩).1.score = -5 ∧
    (check_collision (fun _ => ⟨0, 0⟩)
      ⟨⟨⟨20, 70⟩, ⟨0, 0⟩, 0, true, false, 0, false, true, 30⟩,
        [⟨⟨50, 100⟩, ⟨0, 0⟩, Size.Small, true⟩], [], [], 0, [], 1⟩).1.black_holes =
      [BlackHole.new ⟨50, 100⟩ 40] := by
  have hcol : collides (⟨⟨50, 100⟩, ⟨0, 0⟩, Size.Small, true⟩ : Asteroid)
      (⟨⟨20, 70⟩, ⟨0, 0⟩, 0, true, false, 0, false, true, 30⟩ : Spaceship) := by
    rw [collides_iff]
    norm_num [dist2, asteroid_radius_eq, asteroid_pos_eq, ship_radius_eq, ship_pos_eq,
      Size.scale]
  have h := (asteroid_ship_pass_spec (fun _ => ⟨0, 0⟩)
    ⟨⟨⟨20, 70⟩, ⟨0, 0⟩, 0, true, false, 0, false, true, 30⟩,
      [⟨⟨50, 100⟩, ⟨0, 0⟩, Size.Small, true⟩], [], [], 0, [], 1⟩
    ⟨⟨50, 100⟩, ⟨0, 0⟩, Size.Small, true⟩ [] rfl rfl hcol).2.1 rfl
  refine ⟨?_, ?_, ?_⟩ <;> rw [h] <;> rfl

/-! ### C10 — deactivated entities persist within the tick -/

theorem collides_of_eq {α β α2 β2 : Type} [StellarObject α] [StellarObject β]
    [StellarObject α2] [StellarObject β2] (o1 : α) (o2 : β) (p1 : α2) (p2 : β2)
    (h1 : StellarObject.get_pos o1 = StellarObject.get_pos p1)
    (h2 : StellarObject.radius o1 = StellarObject.radius p1)
    (h3 : StellarObject.get_pos o2 = StellarObject.get_pos p2)
    (h4 : StellarObject.radius o2 = StellarObject.radius p2) :
    collides o1 o2 ↔ collides p1 p2 := by
  unfold collides
  rw [h1, h2, h3, h4]

theorem blackhole_handle_get_pos (b : BlackHole) :
    StellarObject.get_pos (BlackHole.handle_collision b) = StellarObject.get_pos b := by
  unfold BlackHole.handle_collision
  split <;> rfl

theorem blackhole_handle_radius (b : BlackHole) :
    StellarObject.radius (BlackHole.handle_collision b) = StellarObject.radius b := by
  unfold BlackHole.handle_collision
  split <;> rfl

theorem asteroid_move_obj_active (w h : ℚ) (a : Asteroid) :
    (Asteroid.move_obj w h a).active = a.active := rfl

theorem split_children_active (a : Asteroid) (δ : Vec2) :
    ∀ c ∈ split_children a δ, c.active = true := by
  intro c hc
  unfold split_children Asteroid.split at hc
  cases hnext : a.size.next with
  | none => simp [hnext] at hc
  | some ns =>
      simp only [hnext, Asteroid.new_with_size, List.mem_cons, List.not_mem_nil,
        or_false] at hc
      rcases hc with h | h <;> subst h <;> rfl

/-- C10: with the ship not invincible and out of reach, a single asteroid
overlapping both a black hole and a missile is deactivated by the
Asteroid × BlackHole pass, yet stays in the pool and is still processed by
the Asteroid × Missile pass of the same call: the score still gains 1, a
"+1" text is emitted, the split fragments are still produced and appended,
and the missile and black-hole handlers fire as usual. The deactivated
asteroid leaves the pool only in `update_model`'s retain sweep, which
keeps exactly the (active) fragments. -/
theorem deactivated_entities_persist_within_tick (deltas : ℕ → Vec2) (s : Spaceship)
    (a : Asteroid) (b : BlackHole) (m : Missile) (score : ℤ)
    (texts : List TemporaryText) (wave : ℕ)
    (hinv : s.invincible = false)
    (h1 : ¬ collides a s) (h2 : ¬ collides b s) (h3 : collides a b)
    (h4 : ¬ collides m b) (h5 : collides a m) :
    check_collision deltas ⟨s, [a], [m], [b], score, texts, wave⟩ =
      (⟨s,
        Asteroid.handle_collision (Asteroid.handle_collision a) ::
          split_children (Asteroid.handle_collision (Asteroid.handle_collision a))
            (deltas 0),
        [Missile.handle_collision m], [BlackHole.handle_collision b], score + 1,
        texts ++ [⟨"+1",
          (Asteroid.handle_collision (Asteroid.handle_collision a)).get_pos + ⟨20, 20⟩,
          GameColor.green, 0.4⟩], wave⟩, false) ∧
    ∀ w h,
      (update_model w h
          (check_collision deltas ⟨s, [a], [m], [b], score, texts, wave⟩).1).asteroids =
        (split_children (Asteroid.handle_collision (Asteroid.handle_collision a))
          (deltas 0)).map (Asteroid.move_obj w h) := by
  have h4' : ¬ collides m (BlackHole.handle_collision b) := fun hc =>
    h4 ((collides_of_eq m (BlackHole.handle_collision b) m b rfl rfl
      (blackhole_handle_get_pos b) (blackhole_handle_radius b)).mp hc)
  have h5' : collides (Asteroid.handle_collision a) m :=
    (collides_of_eq a m (Asteroid.handle_collision a) m rfl rfl rfl rfl).mp h5
  have hmain : check_collision deltas ⟨s, [a], [m], [b], score, texts, wave⟩ =
      (⟨s,
        Asteroid.handle_collision (Asteroid.handle_collision a) ::
          split_children (Asteroid.handle_collision (Asteroid.handle_collision a))
            (deltas 0),
        [Missile.handle_collision m], [BlackHole.handle_collision b], score + 1,
        texts ++ [⟨"+1",
          (Asteroid.handle_collision (Asteroid.handle_collision a)).get_pos + ⟨20, 20⟩,
          GameColor.green, 0.4⟩], wave⟩, false) := by
    have e3 : ast_bh_pass [a] [b] =
        ([Asteroid.handle_collision a], [BlackHole.handle_collision b]) := by
      simp [ast_bh_pass, ast_bh_one, h3]
    have e4 : bh_missile_pass score texts [BlackHole.handle_collision b] [m] =
        ([BlackHole.handle_collision b], [m], score, texts) := by
      simp [bh_missile_pass, bh_missile_one, h4']
    have e5 : ast_missile_pass deltas 0 score texts [Asteroid.handle_collision a] [m] =
        ([Asteroid.handle_collision (Asteroid.handle_collision a)],
          [Missile.handle_collision m], score + 1,
          texts ++ [⟨"+1",
            (Asteroid.handle_collision (Asteroid.handle_collision a)).get_pos + ⟨20, 20⟩,
            GameColor.green, 0.4⟩],
          split_children (Asteroid.handle_collision (Asteroid.handle_collision a))
            (deltas 0)) := by
      simp [ast_missile_pass, ast_missile_one, h5']
    unfold check_collision
    rw [if_neg (by show ¬ (s.invincible = true); rw [hinv]; exact Bool.false_ne_true)]
    simp [ast_ship_pass, bh_ship_pass, h1, h2, e3, e4, e5]
  refine ⟨hmain, ?_⟩
  intro w h
  rw [hmain]
  unfold update_model
  simp only [List.map_cons]
  rw [List.filter_cons_of_neg]
  · have hall : ∀ x ∈ (split_children
        (Asteroid.handle_collision (Asteroid.handle_collision a)) (deltas 0)).map
          (Asteroid.move_obj w h), x.active = true := by
      intro x hx
      rcases List.mem_map.mp hx with ⟨c, hc, rfl⟩
      rw [asteroid_move_obj_active]
      exact split_children_active _ _ c hc
    exact List.filter_eq_self.mpr hall
  · rw [asteroid_move_obj_active]
    exact Bool.false_ne_true

/-- C10 witness: the sample Large asteroid overlaps the sample black hole
and missile; after the pass: score 1, three asteroids in the pool of which
the first is inactive, missile dead, black-hole counter 1; the sweep then
leaves exactly the two fragments. -/
theorem deactivated_entities_persist_within_tick_witness :
    (check_collision (fun _ => ⟨2, 3⟩) sample_state).1.score = 1 ∧
    (check_collision (fun _ => ⟨2, 3⟩) sample_state).1.asteroids.length = 3 ∧
    ((check_collision (fun _ => ⟨2, 3⟩) sample_state).1.asteroids.map fun x => x.active) =
      [false, true, true] ∧
    (check_collision (fun _ => ⟨2, 3⟩) sample_state).1.missiles =
      [⟨⟨205, 100⟩, ⟨4, 0⟩, false, 2⟩] ∧
    (check_collision (fun _ => ⟨2, 3⟩) sample_state).1.black_holes =
      [⟨⟨100, 100⟩, 100, 1, true⟩] ∧
    (update_model 1000 1000
      (check_collision (fun _ => ⟨2, 3⟩) sample_state).1).asteroids.length = 2 := by
  have hc1 : ¬ collides sample_asteroid sample_ship := by
    rw [collides_iff]
    norm_num [sample_asteroid, sample_ship, dist2, asteroid_radius_eq, asteroid_pos_eq,
      ship_radius_eq, ship_pos_eq, Size.scale]
  have hc2 : ¬ collides sample_black_hole sample_ship := by
    rw [collides_iff]
    norm_num [sample_black_hole, sample_ship, dist2, blackhole_radius_eq,
      blackhole_pos_eq, ship_radius_eq, ship_pos_eq]
  have hc3 : collides sample_asteroid sample_black_hole := by
    rw [collides_iff]
    norm_num [sample_asteroid, sample_black_hole, dist2, asteroid_radius_eq,
      asteroid_pos_eq, blackhole_radius_eq, blackhole_pos_eq, Size.scale]
  have hc4 : ¬ collides sample_missile sample_black_hole := by
    rw [collides_iff]
    norm_num [sample_missile, sample_black_hole, dist2, missile_radius_eq,
      missile_pos_eq, blackhole_radius_eq, blackhole_pos_eq]
  have hc5 : collides sample_asteroid sample_missile := by
    rw [collides_iff]
    norm_num [sample_asteroid, sample_missile, dist2, asteroid_radius_eq,
      asteroid_pos_eq, missile_radius_eq, missile_pos_eq, Size.scale]
  have hs : sample_state =
      ⟨sample_ship, [sample_asteroid], [sample_missile], [sample_black_hole], 0, [], 1⟩ :=
    rfl
  have h := deactivated_entities_persist_within_tick (fun _ => ⟨2, 3⟩) sample_ship
    sample_asteroid sample_black_hole sample_missile 0 [] 1 rfl hc1 hc2 hc3 hc4 hc5
  rw [hs]
  refine ⟨?_, ?_, ?_, ?_, ?_, ?_⟩
  · rw [h.1]; rfl
  · rw [h.1]; rfl
  · rw [h.1]; rfl
  · rw [h.1]; rfl
  · rw [h.1]; rfl
  · rw [h.2 1000 1000]; rfl

end AsteroidsGame
